import Mathlib

/-!
Verification of the repository-recommendation pipeline
(`backend/services/recommendation_engine.py`, `job_service.py`,
`github_client.py`, `notification_service.py`).

Conventions of the embedding:
* Python floats are modelled as exact rationals (`ℚ`); the engine's
  constants 0.4, 0.25, 0.2, 0.1, 0.05, 0.5, 0.7, 0.9, 0.3, 0.8, 0.6
  appear as the corresponding fraction literals.
* `datetime` values are modelled as integer Unix timestamps (seconds);
  `timedelta.days` is floor division by 86400 (`Int.fdiv`), matching
  Python's floor semantics.
* Python's stable `list.sort` / `sorted` are modelled with
  `List.insertionSort`, which computes the unique stable sort for a
  total preorder, hence the same list Python produces.
* Database tables are association lists; SQLAlchemy `query(...).first()`
  is `List.find?`, `db.add` appends.
-/

namespace RGN

/-- ASCII lower-casing, modelling Python `str.lower()` on the ASCII
strings the engine handles. -/
def toLower (s : String) : String :=
  ⟨s.data.map Char.toLower⟩

/-- Python's substring test `needle in hay`. -/
def strContains (hay needle : String) : Bool :=
  (List.range (hay.data.length + 1)).any fun i =>
    (hay.data.drop i).take needle.data.length == needle.data

/-- A regex word character (`\w`): letters, digits, underscore. -/
def isWordChar (c : Char) : Bool :=
  c.isAlphanum || c == '_'

/-- Occurrence of `kw` in `text` at index `i` with `\b` word boundaries
on both sides (modelling `re.search(r'\b<kw>\b', text)`). -/
def boundaryOccursAt (kw text : List Char) (i : Nat) : Bool :=
  ((text.drop i).take kw.length == kw) &&
  (match i with
   | 0 => true
   | j + 1 =>
     match text.get? j with
     | some c => !isWordChar c
     | none => true) &&
  (match text.get? (i + kw.length) with
   | some c => !isWordChar c
   | none => true)

/-- Whole-word regex search `re.search(r'\b<kw>\b', text)` used by
`RecommendationEngine._keyword_matches`. -/
def wordBoundaryMatch (kw text : String) : Bool :=
  (List.range (text.data.length + 1)).any (boundaryOccursAt kw.data text.data)

/-- `RecommendationEngine._keyword_matches`: exact substring match, or,
for single words, a case-insensitive whole-word match (the `re.IGNORECASE`
search is modelled by lower-casing both sides). -/
def keywordMatches (kw text : String) : Bool :=
  strContains text kw ||
  (!strContains kw " " && wordBoundaryMatch (toLower kw) (toLower text))

/-- Normalized repository snapshot, the `repo_data` dict fed to the
engine (`JobExecutionService._repo_cache_to_dict` /
`GitHubClient.parse_repo_data`); only the fields the claimed code reads. -/
structure RepoData where
  repo_id : Nat
  name : Option String
  full_name : Option String
  description : Option String
  language : Option String
  stargazers_count : Nat
  topics : List String
  created_at : Option Int
  updated_at : Option Int
  archived : Bool
  disabled : Bool
deriving DecidableEq

/-- `models/preference.py` `Preference`, restricted to the fields the
pipeline reads. -/
structure Preference where
  id : Nat
  user_id : Nat
  keywords : List String
  languages : List String
  min_stars : Nat
  max_stars : Option Nat
  created_after : Option Int
  updated_after : Option Int
  excluded_topics : List String
  excluded_keywords : List String
  notification_channels : List String
  max_recommendations : Nat
  enabled : Bool
deriving DecidableEq

/-- The structured `reasoning` dict built by
`RecommendationEngine.calculate_score`. -/
structure Reasoning where
  matched_keywords : List String
  excluded_keywords : List String
  language_match : Bool
  star_score : ℚ
  freshness_score : ℚ
  topic_bonus : ℚ
  exclusion_penalty : ℚ
  total_score : ℚ
deriving DecidableEq

/-- `models/recommendation.py` `Recommendation` row. -/
structure Recommendation where
  user_id : Nat
  repo_id : Nat
  score : ℚ
  reason : Reasoning
  preference_id : Option Nat
  job_run_id : Option Nat
  sent_channels : List String
  sent_at : Option Int
  created_at : Int
deriving DecidableEq

/-- Searchable text of `RecommendationEngine._score_keywords`:
name, description and full name, non-empty ones joined by a space,
lower-cased. -/
def searchableText (rd : RepoData) : String :=
  toLower (String.intercalate " "
    (([rd.name.getD "", rd.description.getD "", rd.full_name.getD ""]).filter
      (fun f => f != "")))

/-- `RecommendationEngine._score_keywords`: fraction of preference
keywords matched in the searchable text, plus matched and
excluded-keyword hit lists. -/
def scoreKeywords (rd : RepoData) (keywords excluded : List String) :
    ℚ × List String × List String :=
  if keywords = [] then (0, [], [])
  else
    let text := searchableText rd
    let matched := keywords.filter (fun kw => keywordMatches (toLower kw) text)
    let excludedMatches := excluded.filter (fun kw => keywordMatches (toLower kw) text)
    ((matched.length : ℚ) / (keywords.length : ℚ), matched, excludedMatches)

/-- `RecommendationEngine._score_language`. An empty preference list is
neutral (0.5); a missing or empty repo language scores 0.1; exact match
1.0; case-insensitive substring match in either direction 0.7; else 0. -/
def scoreLanguage (rd : RepoData) (preferred : List String) : ℚ :=
  if preferred = [] then 1/2
  else
    match rd.language with
    | none => 1/10
    | some l =>
      if l = "" then 1/10
      else if preferred.contains l then 1
      else if preferred.any (fun p =>
          strContains (toLower l) (toLower p) || strContains (toLower p) (toLower l))
        then 7/10
      else 0

/-- Python truthiness guard `if max_stars and stars > max_stars`. -/
def maxStarsExceeded (stars : Nat) (max_stars : Option Nat) : Bool :=
  match max_stars with
  | none => false
  | some m => m != 0 && decide (m < stars)

/-- `RecommendationEngine._score_stars`. -/
def scoreStars (stars min_stars : Nat) (max_stars : Option Nat) : ℚ :=
  if stars < min_stars then 0
  else if maxStarsExceeded stars max_stars then 3/10
  else if stars < 100 then 1/2
  else if stars < 1000 then 7/10
  else if stars < 10000 then 9/10
  else 1

/-- Days elapsed between two timestamps, Python `(now - t).days`
(floor division). -/
def daysSince (now t : Int) : Int :=
  (now - t).fdiv 86400

/-- `RecommendationEngine._score_freshness`, with the call to
`datetime.utcnow()` made an explicit `now` argument. -/
def scoreFreshness (rd : RepoData) (now : Int) : ℚ :=
  match rd.updated_at with
  | none => 1/10
  | some upd =>
    let d := daysSince now upd
    if d ≤ 7 then 1
    else if d ≤ 30 then 4/5
    else if d ≤ 90 then 3/5
    else if d ≤ 365 then 2/5
    else 1/5

/-- `RecommendationEngine._score_topics`: -0.5 on any excluded topic,
else +0.2 per keyword with a substring-related topic, capped at 1. -/
def scoreTopics (rd : RepoData) (keywords excludedTopics : List String) : ℚ :=
  if rd.topics = [] then 0
  else if excludedTopics.any (fun et => (rd.topics.map toLower).contains (toLower et))
    then -(1/2)
  else
    min (((keywords.filter (fun kw => rd.topics.any (fun t =>
      strContains (toLower t) (toLower kw) || strContains (toLower kw) (toLower t)))).length : ℚ)
      * (1/5)) 1

/-- `RecommendationEngine.calculate_score`: weighted sum of the five
sub-scores (weights 0.4, 0.25, 0.2, 0.1, 0.05), an excluded-keyword hit
subtracting 0.5 from the raw total, normalized by the accumulated weight
and clamped to [0, 1]; paired with the reasoning payload. -/
def calculate_score (rd : RepoData) (pref : Preference) (now : Int) :
    ℚ × Reasoning :=
  let (keyword_score, matched, excludedM) :=
    scoreKeywords rd pref.keywords pref.excluded_keywords
  let exclusion_penalty : ℚ := if excludedM ≠ [] then -(1/2) else 0
  let language_score := scoreLanguage rd pref.languages
  let star_score := scoreStars rd.stargazers_count pref.min_stars pref.max_stars
  let freshness_score := scoreFreshness rd now
  let topic_score := scoreTopics rd pref.keywords pref.excluded_topics
  let total := exclusion_penalty + keyword_score * (2/5) + language_score * (1/4)
    + star_score * (1/5) + freshness_score * (1/10) + topic_score * (1/20)
  let max_score : ℚ := 2/5 + 1/4 + 1/5 + 1/10 + 1/20
  let final := max 0 (min 1 (if 0 < max_score then total / max_score else 0))
  (final,
   { matched_keywords := matched
     excluded_keywords := excludedM
     language_match := decide (0 < language_score)
     star_score := star_score
     freshness_score := freshness_score
     topic_bonus := topic_score
     exclusion_penalty := exclusion_penalty
     total_score := final })

/-- `RecommendationEngine._passes_basic_filters`: star bounds, date
bounds, archived/disabled exclusion. -/
def passes_basic_filters (rd : RepoData) (pref : Preference) : Bool :=
  if rd.stargazers_count < pref.min_stars then false
  else if maxStarsExceeded rd.stargazers_count pref.max_stars then false
  else if (match pref.created_after, rd.created_at with
           | some ca, some c => decide (c < ca)
           | _, _ => false) then false
  else if (match pref.updated_after, rd.updated_at with
           | some ua, some u => decide (u < ua)
           | _, _ => false) then false
  else if rd.archived || rd.disabled then false
  else true

/-- Descending-by-score order used by `filter_repositories`'
`results.sort(key=lambda x: x[1], reverse=True)`. -/
def scoreDescRel (a b : RepoData × ℚ × Reasoning) : Prop :=
  b.2.1 ≤ a.2.1

instance : DecidableRel scoreDescRel :=
  fun a b => inferInstanceAs (Decidable (b.2.1 ≤ a.2.1))

/-- `RecommendationEngine.filter_repositories`: hard-filter, score, keep
scores above the 0.1 floor, stable sort by descending score, truncate to
`max_recommendations or 10`. -/
def filter_repositories (repos : List RepoData) (pref : Preference) (now : Int) :
    List (RepoData × ℚ × Reasoning) :=
  let results := repos.filterMap (fun rd =>
    if passes_basic_filters rd pref then
      let sr := calculate_score rd pref now
      if 1/10 < sr.1 then some (rd, sr.1, sr.2) else none
    else none)
  (List.insertionSort scoreDescRel results).take
    (if pref.max_recommendations = 0 then 10 else pref.max_recommendations)

/-- Replace the first element satisfying `p` by its image under `f`
(the SQLAlchemy `.first()`-then-mutate update pattern). -/
def updateFirst {α : Type} (p : α → Bool) (f : α → α) : List α → List α
  | [] => []
  | x :: xs => if p x then f x :: xs else x :: updateFirst p f xs

/-- The `(user_id, repo_id)` lookup key of the recommendations table. -/
def recKey (u r : Nat) (x : Recommendation) : Bool :=
  x.user_id == u && x.repo_id == r

/-- The field overwrite `save_recommendations` applies to an existing
row: score, reason, preference_id, job_run_id, refreshed created_at. -/
def overwriteRec (now : Int) (pid jid : Nat) (sc : ℚ) (rs : Reasoning)
    (x : Recommendation) : Recommendation :=
  { x with score := sc, reason := rs, preference_id := some pid,
           job_run_id := some jid, created_at := now }

/-- The fresh row `save_recommendations` inserts when the
`(user_id, repo_id)` lookup finds nothing. -/
def freshRec (now : Int) (u rid pid jid : Nat) (sc : ℚ) (rs : Reasoning) :
    Recommendation :=
  { user_id := u, repo_id := rid, score := sc, reason := rs,
    preference_id := some pid, job_run_id := some jid,
    sent_channels := [], sent_at := none, created_at := now }

/-- One iteration of `RecommendationEngine.save_recommendations`: if a
row for `(user_id, repo_id)` exists, overwrite its score, reason,
preference_id, job_run_id and refresh created_at; else insert a new row.
Returns the updated table and the resulting row. -/
def upsertRecommendation (now : Int) (u pid jid : Nat)
    (item : RepoData × ℚ × Reasoning) (store : List Recommendation) :
    List Recommendation × Recommendation :=
  match store.find? (recKey u item.1.repo_id) with
  | some x =>
    (updateFirst (recKey u item.1.repo_id)
      (overwriteRec now pid jid item.2.1 item.2.2) store,
     overwriteRec now pid jid item.2.1 item.2.2 x)
  | none =>
    (store ++ [freshRec now u item.1.repo_id pid jid item.2.1 item.2.2],
     freshRec now u item.1.repo_id pid jid item.2.1 item.2.2)

/-- `RecommendationEngine.save_recommendations` over a batch of scored
repos: upsert each, returning the updated table and the list of rows
(the function's return value). -/
def save_recommendations (now : Int) (u pid jid : Nat)
    (filtered : List (RepoData × ℚ × Reasoning)) (store : List Recommendation) :
    List Recommendation × List Recommendation :=
  filtered.foldl (fun acc item =>
    let r := upsertRecommendation now u pid jid item acc.1
    (r.1, acc.2 ++ [r.2])) (store, [])

/-- Length order on strings; `sorted(keywords, key=len)` sorts stably by
this relation. -/
def lenLE (a b : String) : Prop :=
  a.length ≤ b.length

instance : DecidableRel lenLE :=
  fun a b => inferInstanceAs (Decidable (a.length ≤ b.length))

instance : IsTotal String lenLE :=
  ⟨fun a b => Nat.le_total a.length b.length⟩

instance : IsTrans String lenLE :=
  ⟨fun _ _ _ => Nat.le_trans⟩

/-- Python's stable `sorted(keywords, key=len)` in
`GitHubClient.search_repositories`. -/
def sortByLen (l : List String) : List String :=
  List.insertionSort lenLE l

/-- The keyword component of the search query: all keywords OR-joined if
at most five, else only the five shortest (stable sort by length). -/
def keywordQueryPart (keywords : List String) : String :=
  if keywords.length ≤ 5 then String.intercalate " OR " keywords
  else String.intercalate " OR " ((sortByLen keywords).take 5)

/-- Date rendering for query filters; abstracts the source's
`strftime("%Y-%m-%d")` as an injective token of the timestamp. -/
def formatDate (d : Int) : String :=
  toString d

/-- The single search query string assembled by
`GitHubClient.search_repositories`: keyword part, optional
`language:`/`stars:>=`/`created:>`/`pushed:>` filters, and `fork:false`. -/
def buildSearchQuery (keywords : List String) (language : Option String)
    (minStars : Nat) (createdAfter updatedAfter : Option Int) : String :=
  let p1 : List String := if keywords = [] then [] else [keywordQueryPart keywords]
  let p2 := p1 ++ (match language with
    | some l => if l = "" then [] else ["language:" ++ l]
    | none => [])
  let p3 := p2 ++ (if 0 < minStars then ["stars:>=" ++ toString minStars] else [])
  let p4 := p3 ++ (match createdAfter with
    | some d => ["created:>" ++ formatDate d]
    | none => [])
  let p5 := p4 ++ (match updatedAfter with
    | some d => ["pushed:>" ++ formatDate d]
    | none => [])
  String.intercalate " " (p5 ++ ["fork:false"])

/-- Typed failures of `GitHubClient._make_request`:
`GitHubRateLimitError`, `ServiceUnavailableException`,
`BadRequestException`. -/
inductive GHError where
  | rateLimit (reset : Int)
  | serviceUnavailable
  | badRequest
deriving DecidableEq

/-- One page of the provider's search response. -/
structure SearchPage where
  total_count : Nat
  items : List RepoData
deriving DecidableEq

/-- The external search provider as an oracle from (query, page) to a
page or a typed error. -/
abbrev SearchOracle := String → Nat → Except GHError SearchPage

/-- The pagination loop of `GitHubClient.search_repositories`
(fuel counts the remaining pages up to `max_pages`). A rate-limit error
is caught inside the loop and merely stops pagination, returning the
repos accumulated so far; other errors propagate. -/
def searchLoop (oracle : SearchOracle) (query : String) (perPage : Nat) :
    Nat → Nat → List RepoData → Except GHError (List RepoData)
  | 0, _, acc => .ok acc
  | fuel + 1, page, acc =>
    match oracle query page with
    | .error (GHError.rateLimit _) => .ok acc
    | .error e => .error e
    | .ok data =>
      if data.items.isEmpty then .ok acc
      else
        let acc2 := acc ++ data.items
        if data.total_count ≤ acc2.length ∨ data.items.length < perPage then .ok acc2
        else searchLoop oracle query perPage fuel (page + 1) acc2

/-- `GitHubClient.search_repositories` (non-demo path): build the single
query string, then paginate. -/
def search_repositories (oracle : SearchOracle) (keywords : List String)
    (language : Option String) (minStars : Nat)
    (createdAfter updatedAfter : Option Int) (perPage maxPages : Nat) :
    Except GHError (List RepoData) :=
  searchLoop oracle (buildSearchQuery keywords language minStars createdAfter updatedAfter)
    perPage maxPages 1 []

/-- Keyword chunking of `JobExecutionService._fetch_repositories`:
successive slices of at most five keywords
(`keywords[i:i+5]` for `i = 0, 5, 10, ...`). -/
def chunksOf5 : List String → List (List String)
  | [] => []
  | [a] => [[a]]
  | [a, b] => [[a, b]]
  | [a, b, c] => [[a, b, c]]
  | [a, b, c, d] => [[a, b, c, d]]
  | a :: b :: c :: d :: e :: rest => [a, b, c, d, e] :: chunksOf5 rest

/-- `_fetch_repositories`' chunk list: the slices for a non-empty
keyword list, a single empty chunk otherwise. -/
def keywordChunks (kws : List String) : List (List String) :=
  if kws = [] then [[]] else chunksOf5 kws

/-- De-duplication by repo id at the end of `_fetch_repositories`. -/
def dedupeById (repos : List RepoData) : List RepoData :=
  (repos.foldl (fun (st : List Nat × List RepoData) r =>
    if st.1.contains r.repo_id then st
    else (r.repo_id :: st.1, st.2 ++ [r])) ([], [])).2

/-- `JobExecutionService._fetch_repositories`: short-circuit on fresh
cache, else issue one search per (language, keyword-chunk) pair (or per
chunk when no languages), swallowing any search error per chunk, then
de-duplicate by id. -/
def fetch_repositories (oracle : SearchOracle) (pref : Preference)
    (recentCache : List RepoData) (forceRefresh : Bool) : List RepoData :=
  if !forceRefresh && !recentCache.isEmpty then recentCache
  else
    let chunks := keywordChunks pref.keywords
    let repos :=
      if pref.languages ≠ [] then
        pref.languages.foldl (fun acc lang =>
          chunks.foldl (fun acc2 ch =>
            match search_repositories oracle ch (some lang) pref.min_stars
                pref.created_after pref.updated_after 30 1 with
            | .ok rs => acc2 ++ rs
            | .error _ => acc2) acc) []
      else
        chunks.foldl (fun acc2 ch =>
          match search_repositories oracle ch none pref.min_stars
              pref.created_after pref.updated_after 50 2 with
          | .ok rs => acc2 ++ rs
          | .error _ => acc2) []
    dedupeById repos

/-- `JobExecutionService._cache_repositories`: per repo, overwrite the
existing cache row with the fresh snapshot or insert a new one; returns
the updated cache table and the list of cached entries. -/
def cache_repositories (store : List RepoData) (repos : List RepoData) :
    List RepoData × List RepoData :=
  repos.foldl (fun (acc : List RepoData × List RepoData) r =>
    let store2 :=
      if acc.1.any (fun x => x.repo_id == r.repo_id) then
        updateFirst (fun x => x.repo_id == r.repo_id) (fun _ => r) acc.1
      else acc.1 ++ [r]
    (store2, acc.2 ++ [r])) (store, [])

/-- Per-user notification destinations read by `NotificationService`
(`models/user.py` fields). -/
structure UserCfg where
  notification_email : Option String
  telegram_chat_id : Option String
  slack_webhook_url : Option String
  wechat_webhook_url : Option String
deriving DecidableEq

/-- Python truthiness of an optional string destination. -/
def truthy : Option String → Bool
  | none => false
  | some s => s != ""

/-- The per-channel attempt sequence of
`NotificationService.send_recommendations_notification`: a channel is
appended to `sent_channels` iff it is listed in the preference, the user
has the destination configured, and the send attempt reports success
(a raised exception behaves like failure: caught, not appended). -/
def aggregateChannels (attempt : String → Bool) (channels : List String)
    (u : UserCfg) : List String :=
  (if channels.contains "email" && truthy u.notification_email && attempt "email"
    then ["email"] else []) ++
  (if channels.contains "telegram" && truthy u.telegram_chat_id && attempt "telegram"
    then ["telegram"] else []) ++
  (if channels.contains "slack" && truthy u.slack_webhook_url && attempt "slack"
    then ["slack"] else []) ++
  (if channels.contains "wechat" && truthy u.wechat_webhook_url && attempt "wechat"
    then ["wechat"] else [])

/-- `NotificationService.send_recommendations_notification` followed by
`_update_recommendations_notification_status`: empty batch or missing
user returns immediately; otherwise every recommendation of the batch is
stamped with the aggregate `sent_channels`, and `sent_at` is set to the
current time when that aggregate is non-empty and cleared to null
otherwise. Returns (sent channels, stamped batch). -/
def send_recommendations_notification (attempt : String → Bool)
    (userCfg : Option UserCfg) (pref : Preference)
    (recs : List Recommendation) (now : Int) :
    List String × List Recommendation :=
  if recs = [] then ([], recs)
  else
    match userCfg with
    | none => ([], recs)
    | some u =>
      let sent := aggregateChannels attempt pref.notification_channels u
      (sent, recs.map (fun r =>
        { r with sent_channels := sent,
                 sent_at := if sent = [] then none else some now }))

/-- The run-level counters dict `total_stats` of
`JobExecutionService.execute_recommendation_job` (fixed numeric keys,
plus the dynamic `notifications_sent_<preference_id>` entries). -/
structure Stats where
  repos_fetched : Nat := 0
  repos_cached : Nat := 0
  repos_filtered : Nat := 0
  recommendations_generated : Nat := 0
  preferences_processed : Nat := 0
  errors_count : Nat := 0
  notifications_sent : List (Nat × List String) := []
deriving DecidableEq

/-- Environment of one job run: the search provider, the user lookup
results, the user's preferences, the recent-cache query result, the
notification channel outcomes, and the clock. -/
structure JobEnv where
  oracle : SearchOracle
  user_id : Nat
  user_found : Bool
  userCfg : Option UserCfg
  prefs : List Preference
  recentCache : List RepoData
  attempt : String → Bool
  now : Int

/-- Final state of a job run: the job_run row's terminal status, the
returned dict's status (none when the exception is re-raised to the
caller), the message, the counters, and the persisted tables. -/
structure JobOutcome where
  job_status : String
  api_status : Option String
  message : Option String
  stats : Stats
  recStore : List Recommendation
  cacheStore : List RepoData

/-- Preference resolution of `execute_recommendation_job`: the single
requested preference when it belongs to the user and is enabled, else
all the user's enabled preferences. -/
def resolvePreferences (prefs : List Preference) (uid : Nat)
    (pid : Option Nat) : List Preference :=
  match pid with
  | some p => prefs.filter (fun x => x.id == p && x.user_id == uid && x.enabled)
  | none => prefs.filter (fun x => x.user_id == uid && x.enabled)

/-- Stamp the persisted recommendation rows whose keys are in the
notified batch (the ORM mutation performed through the shared session by
`_update_recommendations_notification_status`). -/
def stampStore (store : List Recommendation) (keys : List (Nat × Nat))
    (sent : List String) (now : Int) : List Recommendation :=
  store.map (fun x =>
    if keys.contains (x.user_id, x.repo_id) then
      { x with sent_channels := sent,
               sent_at := if sent = [] then none else some now }
    else x)

/-- The body of the per-preference loop of
`execute_recommendation_job`: fetch, cache, filter+score, persist,
notify, accumulate counters. The loop wraps this body in handlers for
`GitHubRateLimitError` (break) and `Exception` (continue), but the body
is total: `search_repositories` turns a rate-limit into partial results
and `_fetch_repositories` catches every remaining search error per
chunk, caching catches per repo, and notification failures are caught
per channel, so neither handler is ever reached from the body. -/
def processPreference (env : JobEnv) (jobRunId : Nat) (forceRefresh : Bool)
    (st : Stats × List Recommendation × List RepoData) (pref : Preference) :
    Stats × List Recommendation × List RepoData :=
  let repos := fetch_repositories env.oracle pref env.recentCache forceRefresh
  let cacheOut := cache_repositories st.2.2 repos
  let filtered := filter_repositories cacheOut.2 pref env.now
  let saveOut := save_recommendations env.now env.user_id pref.id jobRunId
    filtered st.2.1
  let stats1 := { st.1 with
    repos_fetched := st.1.repos_fetched + repos.length
    repos_cached := st.1.repos_cached + cacheOut.2.length
    repos_filtered := st.1.repos_filtered + filtered.length
    recommendations_generated :=
      st.1.recommendations_generated + saveOut.2.length }
  if saveOut.2 ≠ [] ∧ pref.notification_channels ≠ [] then
    let sent := (send_recommendations_notification env.attempt env.userCfg pref
      saveOut.2 env.now).1
    let recStore2 := stampStore saveOut.1
      (saveOut.2.map (fun r => (r.user_id, r.repo_id))) sent env.now
    ({ stats1 with
        notifications_sent := stats1.notifications_sent ++ [(pref.id, sent)]
        preferences_processed := stats1.preferences_processed + 1 },
     recStore2, cacheOut.1)
  else
    ({ stats1 with preferences_processed := stats1.preferences_processed + 1 },
     saveOut.1, cacheOut.1)

/-- `JobExecutionService.execute_recommendation_job`: mark running,
resolve the preference set (empty set completes immediately with an
informational message), run the per-preference loop, and finish
"completed"; a lookup failure (user not found) marks the run "failed"
and re-raises. -/
def execute_recommendation_job (env : JobEnv) (jobRunId : Nat)
    (preferenceId : Option Nat) (forceRefresh : Bool)
    (recStore : List Recommendation) (cacheStore : List RepoData) :
    JobOutcome :=
  if !env.user_found then
    { job_status := "failed", api_status := none
      message := some "User not found", stats := {}
      recStore := recStore, cacheStore := cacheStore }
  else
    let resolved := resolvePreferences env.prefs env.user_id preferenceId
    if resolved = [] then
      { job_status := "completed", api_status := some "completed"
        message := some "No active preferences found", stats := {}
        recStore := recStore, cacheStore := cacheStore }
    else
      let out := resolved.foldl (processPreference env jobRunId forceRefresh)
        ({}, recStore, cacheStore)
      { job_status := "completed", api_status := some "completed"
        message := none, stats := out.1
        recStore := out.2.1, cacheStore := out.2.2 }

/-! Helper lemmas. -/

theorem length_updateFirst {α : Type} (p : α → Bool) (f : α → α) (l : List α) :
    (updateFirst p f l).length = l.length := by
  induction l with
  | nil => rfl
  | cons x xs ih => by_cases h : p x <;> simp [updateFirst, h, ih]

theorem countP_updateFirst {α : Type} (p : α → Bool) (f : α → α) (l : List α)
    (hf : ∀ x, p (f x) = p x) :
    (updateFirst p f l).countP p = l.countP p := by
  induction l with
  | nil => rfl
  | cons x xs ih =>
    by_cases h : p x
    · simp [updateFirst, h, List.countP_cons, hf]
    · simp [updateFirst, h, List.countP_cons, ih]

theorem find?_updateFirst {α : Type} (p : α → Bool) (f : α → α) (l : List α)
    (hf : ∀ x, p (f x) = p x) :
    (updateFirst p f l).find? p = (l.find? p).map f := by
  induction l with
  | nil => rfl
  | cons x xs ih =>
    by_cases h : p x
    · simp [updateFirst, h, List.find?_cons_of_pos, hf]
    · simp [updateFirst, h, List.find?_cons_of_neg, ih]

theorem chunksOf5_spec (n : Nat) : ∀ l : List String, l.length ≤ n → l ≠ [] →
    (chunksOf5 l).length = (l.length + 4) / 5 ∧ (chunksOf5 l).flatten = l := by
  induction n with
  | zero =>
    intro l hl hne
    cases l with
    | nil => exact absurd rfl hne
    | cons a t => simp at hl
  | succ n ih =>
    intro l hl hne
    match l with
    | [a] => simp [chunksOf5]
    | [a, b] => simp [chunksOf5]
    | [a, b, c] => simp [chunksOf5]
    | [a, b, c, d] => simp [chunksOf5]
    | a :: b :: c :: d :: e :: rest =>
      by_cases hr : rest = []
      · subst hr; simp [chunksOf5]
      · have hlen : rest.length ≤ n := by
          simp only [List.length_cons] at hl; omega
        obtain ⟨h1, h2⟩ := ih rest hlen hr
        refine ⟨?_, ?_⟩
        · simp only [chunksOf5, List.length_cons, h1]
          omega
        · simp [chunksOf5, h2]

theorem scoreFreshness_bounds (rd : RepoData) (now : Int) :
    1/10 ≤ scoreFreshness rd now ∧ scoreFreshness rd now ≤ 1 := by
  unfold scoreFreshness
  cases rd.updated_at with
  | none => norm_num
  | some upd => dsimp only; split_ifs <;> norm_num

theorem passes_basic_filters_min_stars {rd : RepoData} {pref : Preference}
    (h : passes_basic_filters rd pref = true) :
    pref.min_stars ≤ rd.stargazers_count := by
  by_cases hc : rd.stargazers_count < pref.min_stars
  · simp [passes_basic_filters, hc] at h
  · omega

/-- Evaluation rule for `calculate_score` when no excluded keyword hits:
the weighted, normalized, clamped combination of the sub-scores. -/
theorem calculate_score_eq (rd : RepoData) (pref : Preference) (now : Int)
    (ks ls ss ts : ℚ) (mk : List String)
    (h1 : scoreKeywords rd pref.keywords pref.excluded_keywords = (ks, mk, []))
    (h2 : scoreLanguage rd pref.languages = ls)
    (h3 : scoreStars rd.stargazers_count pref.min_stars pref.max_stars = ss)
    (h4 : scoreTopics rd pref.keywords pref.excluded_topics = ts) :
    calculate_score rd pref now =
      (max 0 (min 1 (ks * (2/5) + ls * (1/4) + ss * (1/5)
          + scoreFreshness rd now * (1/10) + ts * (1/20))),
       { matched_keywords := mk, excluded_keywords := []
         language_match := decide (0 < ls), star_score := ss
         freshness_score := scoreFreshness rd now, topic_bonus := ts
         exclusion_penalty := 0
         total_score := max 0 (min 1 (ks * (2/5) + ls * (1/4) + ss * (1/5)
           + scoreFreshness rd now * (1/10) + ts * (1/20))) }) := by
  unfold calculate_score
  rw [h1, h2, h3, h4]
  have hw : ((2:ℚ)/5 + 1/4 + 1/5 + 1/10 + 1/20) = 1 := by norm_num
  simp only [hw]
  norm_num

/-! ### C1 — language sub-score cases -/

/-- A concrete Python repository used in counterexamples and witnesses. -/
def repoPy : RepoData :=
  { repo_id := 1, name := some "torch", full_name := some "pytorch/pytorch"
    description := some "tensors", language := some "Python"
    stargazers_count := 82000, topics := [], created_at := none
    updated_at := none, archived := false, disabled := false }

/-- C1 counterexample: for an empty preference language list the
language sub-score is 0.5, not the claimed 1.0. -/
theorem C1_counterexample :
    scoreLanguage repoPy [] = 1/2 ∧ ((1 : ℚ)/2 ≠ 1) := by
  exact ⟨rfl, by norm_num⟩

/-- C1 (amended): the language sub-score used by `calculate_score` is
0.5 (neutral) when the preference language list is empty; otherwise 1.0
on exact match, 0.7 on case-insensitive substring match in either
direction, 0.1 when the repo language is unset (or empty), and 0.0
otherwise. -/
theorem C1_language_score_cases (rd : RepoData) (langs : List String) :
    (langs = [] → scoreLanguage rd langs = 1/2) ∧
    (langs ≠ [] → rd.language = none → scoreLanguage rd langs = 1/10) ∧
    (langs ≠ [] → rd.language = some "" → scoreLanguage rd langs = 1/10) ∧
    (∀ l, langs ≠ [] → rd.language = some l → l ≠ "" →
      langs.contains l = true → scoreLanguage rd langs = 1) ∧
    (∀ l, langs ≠ [] → rd.language = some l → l ≠ "" →
      langs.contains l = false →
      langs.any (fun p => strContains (toLower l) (toLower p)
        || strContains (toLower p) (toLower l)) = true →
      scoreLanguage rd langs = 7/10) ∧
    (∀ l, langs ≠ [] → rd.language = some l → l ≠ "" →
      langs.contains l = false →
      langs.any (fun p => strContains (toLower l) (toLower p)
        || strContains (toLower p) (toLower l)) = false →
      scoreLanguage rd langs = 0) := by
  refine ⟨?_, ?_, ?_, ?_, ?_, ?_⟩ <;> intros <;> simp_all [scoreLanguage]

/-- C1 witness: the exact-match and the neutral branches at concrete
inputs. -/
theorem C1_witness : scoreLanguage repoPy ["Python"] = 1 :=
  (C1_language_score_cases repoPy ["Python"]).2.2.2.1 "Python"
    (by decide) rfl (by decide) (by decide)

/-! ### C6 — keyword chunking -/

/-- C6: for a keyword list longer than the chunk limit K = 5, the
per-preference fetch produces exactly ceil(N/5) = (N+4)/5 chunks, and
the concatenation of the chunks is the original keyword list, so every
keyword lands in exactly one chunk. -/
theorem C6_chunking (kws : List String) (h : 5 < kws.length) :
    (keywordChunks kws).length = (kws.length + 4) / 5 ∧
    (keywordChunks kws).flatten = kws := by
  have hne : kws ≠ [] := by
    intro he; subst he; simp at h
  rw [keywordChunks, if_neg hne]
  exact chunksOf5_spec kws.length kws le_rfl hne

/-- C6 witness: six keywords split into two chunks covering all of them. -/
theorem C6_witness :
    5 < (["a", "b", "c", "d", "e", "f"] : List String).length ∧
    ((keywordChunks ["a", "b", "c", "d", "e", "f"]).length =
      ((["a", "b", "c", "d", "e", "f"] : List String).length + 4) / 5 ∧
     (keywordChunks ["a", "b", "c", "d", "e", "f"]).flatten =
      ["a", "b", "c", "d", "e", "f"]) :=
  ⟨by decide, C6_chunking _ (by decide)⟩

/-! ### C9 — query built from the five shortest keywords -/

/-- C9: with more than five keywords, the single query text built by
`search_repositories` OR-joins exactly the first five entries of the
stable length-sort of the keywords: five of them, a sub-collection of
the input (the sort is a permutation), in nondecreasing length order,
and every kept keyword is no longer than every dropped one. -/
theorem C9_shortest_keywords (kws : List String) (h : 5 < kws.length) :
    keywordQueryPart kws = String.intercalate " OR " ((sortByLen kws).take 5) ∧
    ((sortByLen kws).take 5).length = 5 ∧
    (sortByLen kws).Perm kws ∧
    ((sortByLen kws).take 5).Pairwise lenLE ∧
    ∀ c ∈ (sortByLen kws).take 5, ∀ d ∈ (sortByLen kws).drop 5, lenLE c d := by
  have hperm : (sortByLen kws).Perm kws := List.perm_insertionSort lenLE kws
  have hsorted : (sortByLen kws).Pairwise lenLE :=
    List.sorted_insertionSort lenLE kws
  refine ⟨?_, ?_, hperm, ?_, ?_⟩
  · rw [keywordQueryPart, if_neg (by omega)]
  · have hlen : (sortByLen kws).length = kws.length := hperm.length_eq
    simp only [List.length_take, hlen]
    omega
  · exact hsorted.sublist (List.take_sublist 5 _)
  · have := List.pairwise_append.mp
      (by rw [List.take_append_drop 5 (sortByLen kws)]; exact hsorted)
    exact this.2.2

/-- C9 witness at six concrete keywords. -/
theorem C9_witness :
    keywordQueryPart ["gamma", "be", "alpha", "d", "epsilon", "zz"] =
      String.intercalate " OR "
        ((sortByLen ["gamma", "be", "alpha", "d", "epsilon", "zz"]).take 5) ∧
    ((sortByLen ["gamma", "be", "alpha", "d", "epsilon", "zz"]).take 5).length = 5 ∧
    (sortByLen ["gamma", "be", "alpha", "d", "epsilon", "zz"]).Perm
      ["gamma", "be", "alpha", "d", "epsilon", "zz"] ∧
    ((sortByLen ["gamma", "be", "alpha", "d", "epsilon", "zz"]).take 5).Pairwise lenLE ∧
    ∀ c ∈ (sortByLen ["gamma", "be", "alpha", "d", "epsilon", "zz"]).take 5,
      ∀ d ∈ (sortByLen ["gamma", "be", "alpha", "d", "epsilon", "zz"]).drop 5,
        lenLE c d :=
  C9_shortest_keywords _ (by decide)

/-! ### C5 — min_stars is a hard filter -/

/-- C5: a repo with stars strictly below the preference's `min_stars`
never appears in the output of `filter_repositories`, whatever its
keyword or topic match. -/
theorem C5_min_stars_hard_filter (repos : List RepoData) (pref : Preference)
    (now : Int) (rd : RepoData) (s : ℚ) (rsn : Reasoning)
    (hmem : (rd, s, rsn) ∈ filter_repositories repos pref now) :
    pref.min_stars ≤ rd.stargazers_count := by
  unfold filter_repositories at hmem
  have h2 := List.take_subset _ _ hmem
  have h3 := (List.perm_insertionSort scoreDescRel _).mem_iff.mp h2
  obtain ⟨a, _, heq⟩ := List.mem_filterMap.mp h3
  by_cases hpass : passes_basic_filters a pref
  · rw [if_pos hpass] at heq
    by_cases hsc : 1/10 < (calculate_score a pref now).1
    · rw [if_pos hsc] at heq
      obtain ⟨h4, -, -⟩ := Prod.mk.injEq .. ▸ Option.some_inj.mp heq
      exact h4 ▸ passes_basic_filters_min_stars hpass
    · rw [if_neg hsc] at heq
      exact absurd heq (by simp)
  · rw [if_neg hpass] at heq
    exact absurd heq (by simp)

/-- A concrete repo for the C5 witness. -/
def rdW : RepoData :=
  { repo_id := 42, name := none, full_name := none, description := none
    language := none, stargazers_count := 15000, topics := []
    created_at := none, updated_at := none, archived := false
    disabled := false }

/-- A concrete preference for the C5 witness. -/
def prefW : Preference :=
  { id := 5, user_id := 1, keywords := [], languages := [], min_stars := 10
    max_stars := none, created_after := none, updated_after := none
    excluded_topics := [], excluded_keywords := []
    notification_channels := [], max_recommendations := 10, enabled := true }

/-- The reasoning payload produced for `rdW` against `prefW`. -/
def rsnW : Reasoning :=
  { matched_keywords := [], excluded_keywords := [], language_match := true
    star_score := 1, freshness_score := 1/10, topic_bonus := 0
    exclusion_penalty := 0, total_score := 67/200 }

theorem calculate_score_rdW :
    calculate_score rdW prefW 0 = (67/200, rsnW) := by
  have h := calculate_score_eq rdW prefW 0 0 (1/2) 1 0 [] rfl rfl rfl rfl
  have hf : scoreFreshness rdW 0 = 1/10 := rfl
  rw [hf] at h
  rw [h]
  have hv : (0 : ℚ) * (2/5) + (1/2) * (1/4) + 1 * (1/5) + (1/10) * (1/10)
      + 0 * (1/20) = 67/200 := by norm_num
  rw [hv]
  have hmin : min (1 : ℚ) (67/200) = 67/200 := by
    rw [min_eq_right]; norm_num
  have hmax : max (0 : ℚ) (67/200) = 67/200 := by
    rw [max_eq_right]; norm_num
  rw [hmin, hmax, rsnW]
  norm_num

theorem filter_repositories_rdW :
    filter_repositories [rdW] prefW 0 = [(rdW, 67/200, rsnW)] := by
  unfold filter_repositories
  have hpass : passes_basic_filters rdW prefW = true := rfl
  have hlt : (1 : ℚ)/10 < (calculate_score rdW prefW 0).1 := by
    rw [calculate_score_rdW]; norm_num
  have hmr : (if prefW.max_recommendations = 0 then 10
      else prefW.max_recommendations) = 10 := rfl
  simp only [List.filterMap, hpass, if_true, hlt, calculate_score_rdW, hmr]
  rw [if_pos (show (1 : ℚ)/10 < 67/200 by norm_num)]
  rfl

/-- C5 witness: `rdW` does appear in a concrete filter output, and the
theorem yields its star bound. -/
theorem C5_witness : prefW.min_stars ≤ rdW.stargazers_count :=
  C5_min_stars_hard_filter [rdW] prefW 0 rdW (67/200) rsnW
    (by rw [filter_repositories_rdW]; exact List.mem_singleton.mpr rfl)

/-! ### C4 — recommendation upsert keeps one row per (user, repo) -/

/-- C4: with at most one stored row for `(u, repo_id)`, a second
`save_recommendations` for the same pair inserts no new row: the table
length is unchanged, exactly one row for the pair remains, and that row
carries the second save's score, reason, preference_id, job_run_id and
refreshed created_at. -/
theorem C4_upsert_idempotent (store : List Recommendation)
    (u pid1 jid1 pid2 jid2 : Nat) (rd : RepoData) (sc1 sc2 : ℚ)
    (rs1 rs2 : Reasoning) (t1 t2 : Int)
    (hinv : store.countP (recKey u rd.repo_id) ≤ 1) :
    ((save_recommendations t2 u pid2 jid2 [(rd, sc2, rs2)]
        (save_recommendations t1 u pid1 jid1 [(rd, sc1, rs1)] store).1).1.length =
      (save_recommendations t1 u pid1 jid1 [(rd, sc1, rs1)] store).1.length) ∧
    (save_recommendations t2 u pid2 jid2 [(rd, sc2, rs2)]
        (save_recommendations t1 u pid1 jid1 [(rd, sc1, rs1)] store).1).1.countP
      (recKey u rd.repo_id) = 1 ∧
    ∃ x, (save_recommendations t2 u pid2 jid2 [(rd, sc2, rs2)]
        (save_recommendations t1 u pid1 jid1 [(rd, sc1, rs1)] store).1).1.find?
      (recKey u rd.repo_id) = some x ∧
      x.score = sc2 ∧ x.reason = rs2 ∧ x.preference_id = some pid2 ∧
      x.job_run_id = some jid2 ∧ x.created_at = t2 := by
  have hsave : ∀ (t : Int) (pid jid : Nat) (sc : ℚ) (rs : Reasoning)
      (st : List Recommendation),
      (save_recommendations t u pid jid [(rd, sc, rs)] st).1 =
        (upsertRecommendation t u pid jid (rd, sc, rs) st).1 :=
    fun _ _ _ _ _ _ => rfl
  have hkey : ∀ (t : Int) (pid jid : Nat) (sc : ℚ) (rs : Reasoning)
      (x : Recommendation),
      recKey u rd.repo_id (overwriteRec t pid jid sc rs x) =
        recKey u rd.repo_id x :=
    fun _ _ _ _ _ _ => rfl
  have hkeyfresh : ∀ (t : Int) (pid jid : Nat) (sc : ℚ) (rs : Reasoning),
      recKey u rd.repo_id (freshRec t u rd.repo_id pid jid sc rs) = true := by
    intro t pid jid sc rs
    simp [recKey, freshRec]
  have hs1count :
      (save_recommendations t1 u pid1 jid1 [(rd, sc1, rs1)] store).1.countP
        (recKey u rd.repo_id) = 1 := by
    rw [hsave]
    unfold upsertRecommendation
    cases hfind : store.find? (recKey u rd.repo_id) with
    | none =>
      have hnone : store.countP (recKey u rd.repo_id) = 0 := by
        rw [List.countP_eq_zero]
        intro x hx
        have := List.find?_eq_none.mp hfind x hx
        simpa using this
      simp only [hfind]
      simp [List.countP_append, hnone, hkeyfresh]
    | some x =>
      have hpos : 0 < store.countP (recKey u rd.repo_id) := by
        rw [List.countP_pos_iff]
        exact ⟨x, List.mem_of_find?_eq_some hfind, List.find?_some hfind⟩
      simp only [hfind]
      rw [countP_updateFirst _ _ _ (hkey t1 pid1 jid1 sc1 rs1)]
      omega
  obtain ⟨y, hy⟩ : ∃ y,
      (save_recommendations t1 u pid1 jid1 [(rd, sc1, rs1)] store).1.find?
        (recKey u rd.repo_id) = some y := by
    have hpos : 0 < (save_recommendations t1 u pid1 jid1
        [(rd, sc1, rs1)] store).1.countP (recKey u rd.repo_id) := by
      rw [hs1count]; omega
    rw [List.countP_pos_iff] at hpos
    obtain ⟨a, ha, hpa⟩ := hpos
    exact Option.isSome_iff_exists.mp (List.find?_isSome.mpr ⟨a, ha, hpa⟩)
  have hs2 : (save_recommendations t2 u pid2 jid2 [(rd, sc2, rs2)]
      (save_recommendations t1 u pid1 jid1 [(rd, sc1, rs1)] store).1).1 =
      updateFirst (recKey u rd.repo_id)
        (overwriteRec t2 pid2 jid2 sc2 rs2)
        (save_recommendations t1 u pid1 jid1 [(rd, sc1, rs1)] store).1 := by
    rw [hsave]
    unfold upsertRecommendation
    simp only [hy]
  refine ⟨?_, ?_, ?_⟩
  · rw [hs2]; exact length_updateFirst _ _ _
  · rw [hs2, countP_updateFirst _ _ _ (hkey t2 pid2 jid2 sc2 rs2)]
    exact hs1count
  · refine ⟨overwriteRec t2 pid2 jid2 sc2 rs2 y, ?_, rfl, rfl, rfl, rfl, rfl⟩
    rw [hs2, find?_updateFirst _ _ _ (hkey t2 pid2 jid2 sc2 rs2), hy]
    rfl

/-- A zeroed reasoning payload for witnesses. -/
def rsn0 : Reasoning :=
  { matched_keywords := [], excluded_keywords := [], language_match := false
    star_score := 0, freshness_score := 0, topic_bonus := 0
    exclusion_penalty := 0, total_score := 0 }

/-- C4 witness: two saves of the same (user, repo) starting from an
empty table. -/
theorem C4_witness :
    ((save_recommendations 7 1 21 31 [(rdW, 1, rsn0)]
        (save_recommendations 0 1 20 30 [(rdW, 0, rsn0)] []).1).1.length =
      (save_recommendations 0 1 20 30 [(rdW, 0, rsn0)] []).1.length) ∧
    (save_recommendations 7 1 21 31 [(rdW, 1, rsn0)]
        (save_recommendations 0 1 20 30 [(rdW, 0, rsn0)] []).1).1.countP
      (recKey 1 rdW.repo_id) = 1 ∧
    ∃ x, (save_recommendations 7 1 21 31 [(rdW, 1, rsn0)]
        (save_recommendations 0 1 20 30 [(rdW, 0, rsn0)] []).1).1.find?
      (recKey 1 rdW.repo_id) = some x ∧
      x.score = 1 ∧ x.reason = rsn0 ∧ x.preference_id = some 21 ∧
      x.job_run_id = some 31 ∧ x.created_at = 7 :=
  C4_upsert_idempotent [] 1 20 30 21 31 rdW 0 1 rsn0 rsn0 0 7 (by decide)

/-! ### C8 — determinism of calculate_score -/

/-- A repo updated at epoch 0, for the freshness-dependence
counterexample. -/
def repoFresh : RepoData :=
  { repo_id := 9, name := some "x", full_name := none, description := none
    language := none, stargazers_count := 50, topics := []
    created_at := none, updated_at := some 0, archived := false
    disabled := false }

/-- A minimal preference (no keywords, no languages). -/
def prefFresh : Preference :=
  { id := 8, user_id := 1, keywords := [], languages := [], min_stars := 0
    max_stars := none, created_after := none, updated_after := none
    excluded_topics := [], excluded_keywords := []
    notification_channels := [], max_recommendations := 10, enabled := true }

/-- C8 counterexample: two calls on identical repo data and preference,
made at different wall-clock times (day 0 versus day 400 after the
repo's update), return different results — the freshness sub-score reads
the current time, so the claimed unconditional determinism fails. -/
theorem C8_counterexample :
    calculate_score repoFresh prefFresh 0 ≠
      calculate_score repoFresh prefFresh (86400 * 400) := by
  have e1 : (calculate_score repoFresh prefFresh 0).2.freshness_score = 1 := rfl
  have e2 : (calculate_score repoFresh prefFresh
      (86400 * 400)).2.freshness_score = 1/5 := rfl
  intro h
  rw [h, e2] at e1
  norm_num at e1

/-- C8 (amended): `calculate_score` is deterministic given the clock —
two calls with identical repo data and preference that observe the same
freshness sub-score (in particular, calls at the same instant) return
the identical score and reasoning payload. -/
theorem C8_deterministic_given_clock (rd : RepoData) (pref : Preference)
    (t1 t2 : Int) (h : scoreFreshness rd t1 = scoreFreshness rd t2) :
    calculate_score rd pref t1 = calculate_score rd pref t2 := by
  unfold calculate_score
  rw [h]

/-- C8 witness: two calls one day apart that land in the same freshness
tier agree. -/
theorem C8_witness :
    calculate_score repoFresh prefFresh 0 =
      calculate_score repoFresh prefFresh 86400 :=
  C8_deterministic_given_clock repoFresh prefFresh 0 86400 rfl

/-! ### C3 — the worked scoring example -/

/-- The example preference of the spec:
keywords ai/ml, language Python, min_stars 50. -/
def pref3 : Preference :=
  { id := 3, user_id := 1, keywords := ["ai", "ml"], languages := ["Python"]
    min_stars := 50, max_stars := none, created_after := none
    updated_after := none, excluded_topics := [], excluded_keywords := []
    notification_channels := [], max_recommendations := 10, enabled := true }

/-- The example repo of the spec: 15000 stars, Python, description
"ai framework", no topics; the update timestamp is left free. -/
def repo3 (upd : Option Int) : RepoData :=
  { repo_id := 3, name := none, full_name := none
    description := some "ai framework", language := some "Python"
    stargazers_count := 15000, topics := [], created_at := none
    updated_at := upd, archived := false, disabled := false }

/-- C3: for the example pair, whatever the update timestamp and the
clock, the final score is 0.65 + 0.10 × freshness, with matched
keywords exactly ["ai"], keyword sub-score 1/2, language 1, stars 1,
topic bonus 0. -/
theorem C3_example_score (upd : Option Int) (now : Int) :
    (calculate_score (repo3 upd) pref3 now).1 =
      13/20 + scoreFreshness (repo3 upd) now * (1/10) ∧
    (calculate_score (repo3 upd) pref3 now).2.matched_keywords = ["ai"] ∧
    (calculate_score (repo3 upd) pref3 now).2.star_score = 1 ∧
    (calculate_score (repo3 upd) pref3 now).2.topic_bonus = 0 ∧
    (calculate_score (repo3 upd) pref3 now).2.exclusion_penalty = 0 := by
  have hm : (["ai", "ml"].filter
      (fun kw => keywordMatches (toLower kw) (searchableText (repo3 upd)))) = ["ai"] := rfl
  have hkw : scoreKeywords (repo3 upd) pref3.keywords pref3.excluded_keywords =
      (1/2, ["ai"], []) := by
    show scoreKeywords (repo3 upd) ["ai", "ml"] [] = (1/2, ["ai"], [])
    unfold scoreKeywords
    rw [if_neg (by simp)]
    simp only [hm, List.filter_nil]
    norm_num
  have hl : scoreLanguage (repo3 upd) pref3.languages = 1 := rfl
  have hs : scoreStars (repo3 upd).stargazers_count pref3.min_stars
      pref3.max_stars = 1 := rfl
  have ht : scoreTopics (repo3 upd) pref3.keywords pref3.excluded_topics = 0 := rfl
  have h := calculate_score_eq (repo3 upd) pref3 now (1/2) 1 1 0 ["ai"] hkw hl hs ht
  obtain ⟨hf1, hf2⟩ := scoreFreshness_bounds (repo3 upd) now
  have hval : (1:ℚ)/2 * (2/5) + 1 * (1/4) + 1 * (1/5)
      + scoreFreshness (repo3 upd) now * (1/10) + 0 * (1/20) =
      13/20 + scoreFreshness (repo3 upd) now * (1/10) := by ring
  have hmin : min 1 (13/20 + scoreFreshness (repo3 upd) now * (1/10)) =
      13/20 + scoreFreshness (repo3 upd) now * (1/10) := by
    rw [min_eq_right]; nlinarith
  have hmax : max 0 (13/20 + scoreFreshness (repo3 upd) now * (1/10)) =
      13/20 + scoreFreshness (repo3 upd) now * (1/10) := by
    rw [max_eq_right]; nlinarith
  rw [h]
  simp only [hval, hmin, hmax]
  exact ⟨trivial, trivial, trivial, trivial, trivial⟩

/-! ### C2 — rate-limit signal does not abort the preference loop -/

/-- First of two enabled preferences for the rate-limit scenario. -/
def prefA : Preference :=
  { id := 1, user_id := 1, keywords := ["ai"], languages := []
    min_stars := 0, max_stars := none, created_after := none
    updated_after := none, excluded_topics := [], excluded_keywords := []
    notification_channels := [], max_recommendations := 10, enabled := true }

/-- Second enabled preference. -/
def prefB : Preference :=
  { prefA with id := 2 }

/-- A job environment whose search provider signals rate-limit
exhaustion on every request. -/
def rateLimitedEnv : JobEnv :=
  { oracle := fun _ _ => .error (GHError.rateLimit 1700000000)
    user_id := 1, user_found := true, userCfg := none
    prefs := [prefA, prefB], recentCache := []
    attempt := fun _ => false, now := 0 }

/-- C2 evaluation at the failing input: with 2 enabled preferences and a
provider that raises the rate-limit signal on every search request, the
signal never escapes `search_repositories` (its pagination loop catches
it and returns the partial result), so the job's dedicated rate-limit
handler never fires: BOTH preferences are processed, `errors_count`
stays 0, and the run completes. The claim (and the code's own dead
`break` handler) expect preferences after the first to be skipped and
`errors_count` to be incremented. -/
theorem C2_rate_limit_swallowed :
    search_repositories rateLimitedEnv.oracle ["ai"] none 0 none none 50 2 =
      Except.ok [] ∧
    (execute_recommendation_job rateLimitedEnv 1 none true [] []).job_status =
      "completed" ∧
    (execute_recommendation_job rateLimitedEnv 1 none true
      [] []).stats.preferences_processed = 2 ∧
    (execute_recommendation_job rateLimitedEnv 1 none true
      [] []).stats.errors_count = 0 ∧
    (execute_recommendation_job rateLimitedEnv 1 none true
      [] []).stats.repos_fetched = 0 :=
  ⟨rfl, rfl, rfl, rfl, rfl⟩

/-! ### C7 — empty preference set completes -/

/-- C7: whenever the resolved set of enabled preferences is empty, the
run finishes with status "completed" and the informational message, and
is in particular not "failed". -/
theorem C7_empty_preferences_completed (env : JobEnv) (jid : Nat)
    (pid : Option Nat) (fr : Bool) (rs : List Recommendation)
    (cs : List RepoData)
    (hu : env.user_found = true)
    (hres : resolvePreferences env.prefs env.user_id pid = []) :
    (execute_recommendation_job env jid pid fr rs cs).job_status =
      "completed" ∧
    (execute_recommendation_job env jid pid fr rs cs).message =
      some "No active preferences found" ∧
    (execute_recommendation_job env jid pid fr rs cs).job_status ≠
      "failed" := by
  unfold execute_recommendation_job
  rw [hu]
  simp only [Bool.not_true, Bool.false_eq_true, if_false, hres,
    eq_self_iff_true, if_true]
  refine ⟨trivial, trivial, by decide⟩

/-- An environment with no preferences at all. -/
def emptyPrefEnv : JobEnv :=
  { oracle := fun _ _ => .ok { total_count := 0, items := [] }
    user_id := 1, user_found := true, userCfg := none, prefs := []
    recentCache := [], attempt := fun _ => false, now := 0 }

/-- C7 witness at a concrete environment with zero preferences. -/
theorem C7_witness :
    (execute_recommendation_job emptyPrefEnv 1 none false [] []).job_status =
      "completed" ∧
    (execute_recommendation_job emptyPrefEnv 1 none false [] []).message =
      some "No active preferences found" ∧
    (execute_recommendation_job emptyPrefEnv 1 none false [] []).job_status ≠
      "failed" :=
  C7_empty_preferences_completed emptyPrefEnv 1 none false [] [] rfl rfl

/-! ### C10 — uniform notification stamping -/

/-- C10: once `send_recommendations_notification` returns for a
non-empty batch (user record present), every recommendation of the
returned batch carries the same `sent_channels` list — the aggregate of
the channels that succeeded — and `sent_at` is the current timestamp
when that aggregate is non-empty and null when every attempted channel
failed or was skipped. -/
theorem C10_uniform_stamp (attempt : String → Bool) (u : UserCfg)
    (pref : Preference) (recs : List Recommendation) (now : Int)
    (hne : recs ≠ []) :
    ∀ r ∈ (send_recommendations_notification attempt (some u) pref recs now).2,
      r.sent_channels =
        (send_recommendations_notification attempt (some u) pref recs now).1 ∧
      r.sent_at = (if (send_recommendations_notification attempt (some u)
          pref recs now).1 = [] then none else some now) := by
  intro r hr
  unfold send_recommendations_notification at hr ⊢
  rw [if_neg hne] at hr ⊢
  simp only [List.mem_map] at hr
  obtain ⟨x, -, hx⟩ := hr
  subst hx
  exact ⟨rfl, rfl⟩

/-- A user with only an email destination configured. -/
def u0 : UserCfg :=
  { notification_email := some "a@example.com", telegram_chat_id := none
    slack_webhook_url := none, wechat_webhook_url := none }

/-- A preference routing to the email channel. -/
def pref0 : Preference :=
  { prefA with id := 4, notification_channels := ["email"] }

/-- A stored recommendation row awaiting notification. -/
def rec0 : Recommendation :=
  { user_id := 1, repo_id := 42, score := 1, reason := rsn0
    preference_id := some 4, job_run_id := some 1, sent_channels := []
    sent_at := none, created_at := 0 }

/-- The row `rec0` as stamped by a successful email send at time 0. -/
def rec0s : Recommendation :=
  { rec0 with sent_channels := ["email"], sent_at := some 0 }

/-- C10 witness: a singleton batch stamped through a succeeding email
channel. -/
theorem C10_witness :
    rec0s.sent_channels =
      (send_recommendations_notification (fun _ => true) (some u0) pref0
        [rec0] 0).1 ∧
    rec0s.sent_at =
      (if (send_recommendations_notification (fun _ => true) (some u0) pref0
          [rec0] 0).1 = [] then none else some 0) :=
  C10_uniform_stamp (fun _ => true) u0 pref0 [rec0] 0 (by decide) rec0s
    (by decide)

end RGN
